import Mathlib

/-!
Shallow embedding of the tuning-rule engine of `postgresql_tune.py`:
the PostgreSQL settings calculator `postgres_settings`, the size
formatter `format_value`, and the kernel-parameter calculator
`kernel_settings`.

Conventions of the embedding:
* Memory quantities are natural numbers of bytes (the Python integers
  are nonnegative throughout, and `/` on nonnegative Python 2 integers
  is floor division, as is `math.floor` of an exact quotient, so `Nat`
  division reproduces them).
* `db_version` is a rational number standing for the decimal version
  literal (the Python float comparisons against the one-decimal
  literals 9.3 and 9.5 behave as exact decimal comparisons for every
  realistic version value).  The decimal literals of the source are
  given below as reduced rational constants so that they evaluate.
* The Python dicts keyed by `db_type` become `List.lookup` over
  association lists, so an unknown workload type makes the whole
  computation fail with `none`, exactly as the Python `KeyError`
  aborts `postgres_settings` before anything is returned.
* The result dict becomes a structure: the keys the source inserts
  unconditionally are plain fields, the conditional ones are `Option`
  fields (`none` = key absent).  Values are the raw kibibyte numbers
  the source computes before the final `format_value` pass;
  `checkpoint_completion_target` keeps its fractional value as `ℚ`.
-/

namespace PostgresqlTune

/-- Entry `KB` of the source's `CONST_SIZE` table (bytes per KB). -/
def CONST_SIZE_KB : ℕ := 1024

/-- Entry `MB` of the source's `CONST_SIZE` table (bytes per MB). -/
def CONST_SIZE_MB : ℕ := 1048576

/-- Entry `GB` of the source's `CONST_SIZE` table (bytes per GB). -/
def CONST_SIZE_GB : ℕ := 1073741824

/-- Entry `KB_PER_GB` of the source's `CONST_SIZE` table. -/
def KB_PER_GB : ℕ := 1048576

/-- Entry `KB_PER_MB` of the source's `CONST_SIZE` table. -/
def KB_PER_MB : ℕ := 1024

/-- The source's `CON_BY_TYPE` table of default `max_connections`. -/
def CON_BY_TYPE : List (String × ℕ) :=
  [("web", 200), ("oltp", 300), ("dw", 20), ("desktop", 5), ("mixed", 100)]

/-- The version literal `9.5` of the source, as a reduced rational. -/
def ver9_5 : ℚ := Rat.mk' 19 2

/-- The version literal `9.3` of the source, as a reduced rational. -/
def ver9_3 : ℚ := Rat.mk' 93 10

/-- The `checkpoint_completion_target` literal `0.7` of the source. -/
def cct0_7 : ℚ := Rat.mk' 7 10

/-- The `checkpoint_completion_target` literal `0.9` of the source. -/
def cct0_9 : ℚ := Rat.mk' 9 10

/-- The `checkpoint_completion_target` literal `0.5` of the source. -/
def cct0_5 : ℚ := Rat.mk' 1 2

/-- The configuration mapping built by `postgres_settings`, before the
final formatting pass.  Keys that the source inserts on every run are
plain fields; keys inserted conditionally are `Option` fields, with
`none` meaning the key is absent from the dict. -/
structure PostgresConfig where
  max_connections : ℕ
  shared_buffers : Option ℕ
  effective_cache_size : Option ℕ
  work_mem : Option ℕ
  maintenance_work_mem : Option ℕ
  checkpoint_segments : Option ℕ
  min_wal_size : Option ℕ
  max_wal_size : Option ℕ
  checkpoint_completion_target : ℚ
  wal_buffers : Option ℕ
  default_statistics_target : ℕ
deriving DecidableEq, Repr

/-- Embedding of the source's `postgres_settings`.  Every per-workload
dict subscript `{...}[db_type]` is a `List.lookup`; a failed lookup
(unknown workload type) aborts the whole computation with `none`, the
way the Python `KeyError` propagates before any dict is returned.  The
memory-sized keys guarded by the 256 MiB low-memory test travel
together as `memPart`; the version-gated WAL branch is a `Sum` so the
two alternatives are mutually exclusive by construction. -/
def postgres_settings (db_version : ℚ) (os_type : String) (db_type : String)
    (total_memory : ℕ) (max_connections : Option ℤ) : Option PostgresConfig := do
  let mc ←
    match max_connections with
    | none => List.lookup db_type CON_BY_TYPE
    | some m =>
      if m < 1 ∨ 9999 < m then List.lookup db_type CON_BY_TYPE
      else pure m.toNat
  let memory_in_KB := total_memory / CONST_SIZE_KB
  let memPart ←
    if 256 * CONST_SIZE_MB ≤ total_memory then do
      let sb0 ← List.lookup db_type
        [("web", memory_in_KB / 4), ("oltp", memory_in_KB / 4),
         ("dw", memory_in_KB / 4), ("desktop", memory_in_KB / 16),
         ("mixed", memory_in_KB / 4)]
      let sb := if os_type = "windows" ∧ 512 * CONST_SIZE_MB / CONST_SIZE_KB < sb0
        then 512 * CONST_SIZE_MB / CONST_SIZE_KB else sb0
      let ecs ← List.lookup db_type
        [("web", memory_in_KB * 3 / 4), ("oltp", memory_in_KB * 3 / 4),
         ("dw", memory_in_KB * 3 / 4), ("desktop", memory_in_KB / 4),
         ("mixed", memory_in_KB * 3 / 4)]
      let wm0 := (memory_in_KB - sb) / (mc * 3)
      let wm ← List.lookup db_type
        [("web", wm0), ("oltp", wm0), ("dw", wm0 / 2),
         ("desktop", wm0 / 6), ("mixed", wm0 / 2)]
      let mwm0 ← List.lookup db_type
        [("web", memory_in_KB / 16), ("oltp", memory_in_KB / 16),
         ("dw", memory_in_KB / 8), ("desktop", memory_in_KB / 16),
         ("mixed", memory_in_KB / 16)]
      let mwm := if 2 * CONST_SIZE_GB / CONST_SIZE_KB < mwm0
        then 2 * CONST_SIZE_GB / CONST_SIZE_KB else mwm0
      pure (some (sb, ecs, wm, mwm))
    else
      pure none
  let walPart ←
    if db_version < ver9_5 then do
      let cs ← List.lookup db_type
        [("web", 32), ("oltp", 64), ("dw", 128), ("desktop", 3), ("mixed", 32)]
      pure (Sum.inl cs)
    else do
      let minw ← List.lookup db_type
        [("web", 1024 * CONST_SIZE_MB / CONST_SIZE_KB),
         ("oltp", 2048 * CONST_SIZE_MB / CONST_SIZE_KB),
         ("dw", 4096 * CONST_SIZE_MB / CONST_SIZE_KB),
         ("desktop", 100 * CONST_SIZE_MB / CONST_SIZE_KB),
         ("mixed", 1024 * CONST_SIZE_MB / CONST_SIZE_KB)]
      let maxw ← List.lookup db_type
        [("web", 2048 * CONST_SIZE_MB / CONST_SIZE_KB),
         ("oltp", 4096 * CONST_SIZE_MB / CONST_SIZE_KB),
         ("dw", 8192 * CONST_SIZE_MB / CONST_SIZE_KB),
         ("desktop", 100 * CONST_SIZE_MB / CONST_SIZE_KB),
         ("mixed", 2048 * CONST_SIZE_MB / CONST_SIZE_KB)]
      pure (Sum.inr (minw, maxw))
  let cct ← List.lookup db_type
    [("web", cct0_7), ("oltp", cct0_9), ("dw", cct0_9),
     ("desktop", cct0_5), ("mixed", cct0_9)]
  let wb :=
    match memPart with
    | some (sb, _, _, _) =>
      let wb0 := 3 * sb / 100
      let wb1 := if 16 * CONST_SIZE_MB / CONST_SIZE_KB < wb0
        then 16 * CONST_SIZE_MB / CONST_SIZE_KB else wb0
      some (if 14 * CONST_SIZE_MB / CONST_SIZE_KB < wb1 ∧
              wb1 < 16 * CONST_SIZE_MB / CONST_SIZE_KB
        then 16 * CONST_SIZE_MB / CONST_SIZE_KB else wb1)
    | none => none
  let dst ← List.lookup db_type
    [("web", 100), ("oltp", 100), ("dw", 500), ("desktop", 100), ("mixed", 100)]
  pure
    { max_connections := mc
      shared_buffers := memPart.map (fun q => q.1)
      effective_cache_size := memPart.map (fun q => q.2.1)
      work_mem := memPart.map (fun q => q.2.2.1)
      maintenance_work_mem := memPart.map (fun q => q.2.2.2)
      checkpoint_segments := match walPart with | Sum.inl cs => some cs | Sum.inr _ => none
      min_wal_size := match walPart with | Sum.inl _ => none | Sum.inr p => some p.1
      max_wal_size := match walPart with | Sum.inl _ => none | Sum.inr p => some p.2
      checkpoint_completion_target := cct
      wal_buffers := wb
      default_statistics_target := dst }

/-- Resolution of the `max_connections` argument against a workload
default `d`, as the validation at the top of `postgres_settings`
performs it. -/
def resolve_connections (mcOpt : Option ℤ) (d : ℕ) : ℕ :=
  match mcOpt with
  | none => d
  | some m => if m < 1 ∨ 9999 < m then d else m.toNat

/-- Closed form of `postgres_settings` once the workload type is fixed:
`cdef` is the default connection count, `sbF`, `ecsF`, `mwmF` derive the
corresponding sizes from `memory_in_KB`, `wmF` applies the per-workload
divisor to the `work_mem` base, and the remaining arguments are the
workload's fixed table entries.  The five unfolding lemmas below prove
that `postgres_settings` at each valid workload string equals this form
at that workload's table row. -/
def settings_for (v : ℚ) (os : String) (tm : ℕ) (mcOpt : Option ℤ)
    (cdef : ℕ) (sbF ecsF mwmF wmF : ℕ → ℕ)
    (cs minw maxw : ℕ) (cct : ℚ) (dst : ℕ) : PostgresConfig :=
  let mc := resolve_connections mcOpt cdef
  let memKB := tm / CONST_SIZE_KB
  let sb0 := sbF memKB
  let sb := if os = "windows" ∧ 512 * CONST_SIZE_MB / CONST_SIZE_KB < sb0
    then 512 * CONST_SIZE_MB / CONST_SIZE_KB else sb0
  let wm0 := (memKB - sb) / (mc * 3)
  let mwm0 := mwmF memKB
  let mwm := if 2 * CONST_SIZE_GB / CONST_SIZE_KB < mwm0
    then 2 * CONST_SIZE_GB / CONST_SIZE_KB else mwm0
  let wb0 := 3 * sb / 100
  let wb1 := if 16 * CONST_SIZE_MB / CONST_SIZE_KB < wb0
    then 16 * CONST_SIZE_MB / CONST_SIZE_KB else wb0
  let wb2 := if 14 * CONST_SIZE_MB / CONST_SIZE_KB < wb1 ∧
      wb1 < 16 * CONST_SIZE_MB / CONST_SIZE_KB
    then 16 * CONST_SIZE_MB / CONST_SIZE_KB else wb1
  { max_connections := mc
    shared_buffers := if 256 * CONST_SIZE_MB ≤ tm then some sb else none
    effective_cache_size := if 256 * CONST_SIZE_MB ≤ tm then some (ecsF memKB) else none
    work_mem := if 256 * CONST_SIZE_MB ≤ tm then some (wmF wm0) else none
    maintenance_work_mem := if 256 * CONST_SIZE_MB ≤ tm then some mwm else none
    checkpoint_segments := if v < ver9_5 then some cs else none
    min_wal_size := if v < ver9_5 then none else some minw
    max_wal_size := if v < ver9_5 then none else some maxw
    checkpoint_completion_target := cct
    wal_buffers := if 256 * CONST_SIZE_MB ≤ tm then some wb2 else none
    default_statistics_target := dst }

/-- The source's `NOT_SIZE_VALUES` exemption list of `format_value`. -/
def NOT_SIZE_VALUES : List String :=
  ["max_connections", "checkpoint_segments",
   "checkpoint_completion_target", "default_statistics_target",
   "random_page_cost", "seq_page_cost"]

/-- Embedding of the source's `format_value` on the integer KB values
it receives (the only non-integer value of the config,
`checkpoint_completion_target`, is in the exemption list and is
rendered bare). -/
def format_value (key : String) (value : ℕ) : String :=
  if key ∈ NOT_SIZE_VALUES then toString value
  else if value % KB_PER_GB = 0 then toString (value / KB_PER_GB) ++ "GB"
  else if value % KB_PER_MB = 0 then toString (value / KB_PER_MB) ++ "MB"
  else toString value ++ "kB"

/-- Embedding of the source's `kernel_settings`.  The result is the
returned mapping: empty for Windows or versions above 9.3, otherwise
the two `kernel.shmmax` / `kernel.shmall` entries as plain integers. -/
def kernel_settings (db_version : ℚ) (os_type : String) (db_type : String)
    (total_memory : ℕ) : List (String × ℕ) :=
  if os_type = "windows" ∨ ver9_3 < db_version then []
  else
    let shmall := total_memory / 8192
    [("kernel.shmmax", shmall * 4096), ("kernel.shmall", shmall)]

theorem ver9_5_eq : ver9_5 = 95 / 10 := by
  rw [ver9_5, Rat.mk'_eq_divInt]
  norm_num [Rat.divInt_eq_div]

theorem ver9_3_eq : ver9_3 = 93 / 10 := by
  rw [ver9_3, Rat.mk'_eq_divInt]
  norm_num [Rat.divInt_eq_div]

set_option maxHeartbeats 2000000 in
theorem postgres_settings_web (v : ℚ) (os : String) (tm : ℕ) (mcOpt : Option ℤ) :
    postgres_settings v os "web" tm mcOpt =
      some (settings_for v os tm mcOpt 200 (fun m => m / 4) (fun m => m * 3 / 4)
        (fun m => m / 16) (fun w => w) 32
        (1024 * CONST_SIZE_MB / CONST_SIZE_KB) (2048 * CONST_SIZE_MB / CONST_SIZE_KB)
        cct0_7 100) := by
  cases mcOpt <;>
    simp only [postgres_settings, List.lookup, beq_self_eq_true, String.reduceBEq,
      Bind.bind, Option.bind, pure, settings_for, resolve_connections] <;>
    split_ifs <;>
    rfl

set_option maxHeartbeats 2000000 in
theorem postgres_settings_oltp (v : ℚ) (os : String) (tm : ℕ) (mcOpt : Option ℤ) :
    postgres_settings v os "oltp" tm mcOpt =
      some (settings_for v os tm mcOpt 300 (fun m => m / 4) (fun m => m * 3 / 4)
        (fun m => m / 16) (fun w => w) 64
        (2048 * CONST_SIZE_MB / CONST_SIZE_KB) (4096 * CONST_SIZE_MB / CONST_SIZE_KB)
        cct0_9 100) := by
  cases mcOpt <;>
    simp only [postgres_settings, List.lookup, beq_self_eq_true, String.reduceBEq,
      Bind.bind, Option.bind, pure, settings_for, resolve_connections] <;>
    split_ifs <;>
    rfl

set_option maxHeartbeats 2000000 in
theorem postgres_settings_dw (v : ℚ) (os : String) (tm : ℕ) (mcOpt : Option ℤ) :
    postgres_settings v os "dw" tm mcOpt =
      some (settings_for v os tm mcOpt 20 (fun m => m / 4) (fun m => m * 3 / 4)
        (fun m => m / 8) (fun w => w / 2) 128
        (4096 * CONST_SIZE_MB / CONST_SIZE_KB) (8192 * CONST_SIZE_MB / CONST_SIZE_KB)
        cct0_9 500) := by
  cases mcOpt <;>
    simp only [postgres_settings, List.lookup, beq_self_eq_true, String.reduceBEq,
      Bind.bind, Option.bind, pure, settings_for, resolve_connections] <;>
    split_ifs <;>
    rfl

set_option maxHeartbeats 2000000 in
theorem postgres_settings_desktop (v : ℚ) (os : String) (tm : ℕ) (mcOpt : Option ℤ) :
    postgres_settings v os "desktop" tm mcOpt =
      some (settings_for v os tm mcOpt 5 (fun m => m / 16) (fun m => m / 4)
        (fun m => m / 16) (fun w => w / 6) 3
        (100 * CONST_SIZE_MB / CONST_SIZE_KB) (100 * CONST_SIZE_MB / CONST_SIZE_KB)
        cct0_5 100) := by
  cases mcOpt <;>
    simp only [postgres_settings, List.lookup, beq_self_eq_true, String.reduceBEq,
      Bind.bind, Option.bind, pure, settings_for, resolve_connections] <;>
    split_ifs <;>
    rfl

set_option maxHeartbeats 2000000 in
theorem postgres_settings_mixed (v : ℚ) (os : String) (tm : ℕ) (mcOpt : Option ℤ) :
    postgres_settings v os "mixed" tm mcOpt =
      some (settings_for v os tm mcOpt 100 (fun m => m / 4) (fun m => m * 3 / 4)
        (fun m => m / 16) (fun w => w / 2) 32
        (1024 * CONST_SIZE_MB / CONST_SIZE_KB) (2048 * CONST_SIZE_MB / CONST_SIZE_KB)
        cct0_9 100) := by
  cases mcOpt <;>
    simp only [postgres_settings, List.lookup, beq_self_eq_true, String.reduceBEq,
      Bind.bind, Option.bind, pure, settings_for, resolve_connections] <;>
    split_ifs <;>
    rfl

/-- A lookup over the five-workload association lists fails exactly on
the strings outside the enumeration. -/
theorem lookup_none {α : Type} (t : String)
    (h : t ∉ (["web", "oltp", "dw", "desktop", "mixed"] : List String))
    (a b c d e : α) :
    List.lookup t [("web", a), ("oltp", b), ("dw", c), ("desktop", d), ("mixed", e)] =
      none := by
  simp only [List.mem_cons, List.not_mem_nil, or_false, not_or] at h
  obtain ⟨h1, h2, h3, h4, h5⟩ := h
  simp [List.lookup, beq_eq_false_iff_ne.mpr h1, beq_eq_false_iff_ne.mpr h2,
    beq_eq_false_iff_ne.mpr h3, beq_eq_false_iff_ne.mpr h4,
    beq_eq_false_iff_ne.mpr h5]

/-- An unknown workload type makes `postgres_settings` fail, whatever
the other arguments are. -/
theorem postgres_settings_invalid (v : ℚ) (os t : String) (tm : ℕ)
    (mcOpt : Option ℤ)
    (h : t ∉ (["web", "oltp", "dw", "desktop", "mixed"] : List String)) :
    postgres_settings v os t tm mcOpt = none := by
  have hn : ∀ {α : Type} (a b c d e : α),
      List.lookup t [("web", a), ("oltp", b), ("dw", c), ("desktop", d), ("mixed", e)] =
        none := fun a b c d e => lookup_none t h a b c d e
  simp only [postgres_settings, CON_BY_TYPE]
  cases mcOpt <;>
    simp only [hn, Bind.bind, Option.bind, pure] <;>
    split_ifs <;>
    simp only [hn, Bind.bind, Option.bind, pure]

/-- A successful run of `postgres_settings` pins the workload type to
one of the five known variants. -/
theorem valid_of_some (v : ℚ) (os t : String) (tm : ℕ) (mcOpt : Option ℤ)
    (cfg : PostgresConfig) (h : postgres_settings v os t tm mcOpt = some cfg) :
    t ∈ (["web", "oltp", "dw", "desktop", "mixed"] : List String) := by
  by_contra hn
  rw [postgres_settings_invalid v os t tm mcOpt hn] at h
  exact Option.noConfusion h

/-- C6: for every key and KB value, `format_value` renders exempt keys
as the bare numeric string, and otherwise picks GB when the value is
divisible by 1048576, MB when divisible by 1024, and the bare KB value
with suffix `kB` otherwise. -/
theorem format_value_spec (key : String) (v : ℕ) :
    (key ∈ NOT_SIZE_VALUES → format_value key v = toString v) ∧
    (key ∉ NOT_SIZE_VALUES →
      (v % 1048576 = 0 → format_value key v = toString (v / 1048576) ++ "GB") ∧
      (v % 1048576 ≠ 0 → v % 1024 = 0 →
        format_value key v = toString (v / 1024) ++ "MB") ∧
      (v % 1048576 ≠ 0 → v % 1024 ≠ 0 →
        format_value key v = toString v ++ "kB")) := by
  unfold format_value KB_PER_GB KB_PER_MB
  split_ifs with h1 h2 h3 <;> simp_all

/-- Witness for C6 at a size key divisible by a full GB. -/
theorem format_value_spec_witness :
    format_value "shared_buffers" 1048576 = toString (1048576 / 1048576) ++ "GB" :=
  ((format_value_spec "shared_buffers" 1048576).2 (by decide)).1 (by decide)

/-- C7: `kernel_settings` returns the empty mapping exactly on Windows
or for versions above 9.3, and otherwise exactly the two entries
`kernel.shmall = total_memory / 8192` and `kernel.shmmax = shmall * 4096`,
as plain integers. -/
theorem kernel_settings_spec (v : ℚ) (os t : String) (tm : ℕ) :
    (kernel_settings v os t tm = [] ↔ (os = "windows" ∨ ver9_3 < v)) ∧
    (¬(os = "windows" ∨ ver9_3 < v) →
      kernel_settings v os t tm =
        [("kernel.shmmax", tm / 8192 * 4096), ("kernel.shmall", tm / 8192)]) := by
  unfold kernel_settings
  split_ifs with hc <;> simp [hc]

/-- Witness for C7 on the spec's 9.3 / linux / 128 MB example. -/
theorem kernel_settings_spec_witness :
    kernel_settings ver9_3 "linux" "web" 134217728 =
      [("kernel.shmmax", 134217728 / 8192 * 4096), ("kernel.shmall", 134217728 / 8192)] :=
  (kernel_settings_spec ver9_3 "linux" "web" 134217728).2 (by decide)

/-- C10: the workload-type argument of `kernel_settings` never
influences its result. -/
theorem kernel_settings_ignores_db_type (v : ℚ) (os t1 t2 : String) (tm : ℕ) :
    kernel_settings v os t1 tm = kernel_settings v os t2 tm := rfl

/-- C8: `postgres_settings` fails (returns `none`, the embedding of the
aborting `KeyError`) exactly when the workload type is outside the five
known variants; failure by construction yields no partial mapping. -/
theorem postgres_settings_fails_iff_unknown_workload (v : ℚ) (os t : String)
    (tm : ℕ) (mcOpt : Option ℤ) :
    postgres_settings v os t tm mcOpt = none ↔
      t ∉ (["web", "oltp", "dw", "desktop", "mixed"] : List String) := by
  constructor
  · intro h hmem
    fin_cases hmem <;>
      simp only [postgres_settings_web, postgres_settings_oltp, postgres_settings_dw,
        postgres_settings_desktop, postgres_settings_mixed, reduceCtorEq] at h
  · exact postgres_settings_invalid v os t tm mcOpt

/-- Witness for C8 at an unknown workload string. -/
theorem postgres_settings_fails_witness :
    postgres_settings ver9_3 "linux" "nosuch" 1073741824 (some 50) = none :=
  (postgres_settings_fails_iff_unknown_workload ver9_3 "linux" "nosuch"
    1073741824 (some 50)).mpr (by decide)

section SettingsForFields

variable (v : ℚ) (os : String) (tm : ℕ) (mcOpt : Option ℤ) (cdef : ℕ)
  (sbF ecsF mwmF wmF : ℕ → ℕ) (cs minw maxw : ℕ) (cct : ℚ) (dst : ℕ)

theorem settings_for_mc :
    (settings_for v os tm mcOpt cdef sbF ecsF mwmF wmF cs minw maxw cct dst).max_connections =
      resolve_connections mcOpt cdef := rfl

theorem settings_for_sb :
    (settings_for v os tm mcOpt cdef sbF ecsF mwmF wmF cs minw maxw cct dst).shared_buffers =
      if 256 * CONST_SIZE_MB ≤ tm then
        some (if os = "windows" ∧ 512 * CONST_SIZE_MB / CONST_SIZE_KB < sbF (tm / CONST_SIZE_KB)
          then 512 * CONST_SIZE_MB / CONST_SIZE_KB else sbF (tm / CONST_SIZE_KB))
      else none := rfl

theorem settings_for_ecs :
    (settings_for v os tm mcOpt cdef sbF ecsF mwmF wmF cs minw maxw cct dst).effective_cache_size =
      if 256 * CONST_SIZE_MB ≤ tm then some (ecsF (tm / CONST_SIZE_KB)) else none := rfl

theorem settings_for_wm :
    (settings_for v os tm mcOpt cdef sbF ecsF mwmF wmF cs minw maxw cct dst).work_mem =
      if 256 * CONST_SIZE_MB ≤ tm then
        some (wmF ((tm / CONST_SIZE_KB -
          (if os = "windows" ∧ 512 * CONST_SIZE_MB / CONST_SIZE_KB < sbF (tm / CONST_SIZE_KB)
            then 512 * CONST_SIZE_MB / CONST_SIZE_KB else sbF (tm / CONST_SIZE_KB))) /
          (resolve_connections mcOpt cdef * 3)))
      else none := rfl

theorem settings_for_mwm :
    (settings_for v os tm mcOpt cdef sbF ecsF mwmF wmF cs minw maxw cct dst).maintenance_work_mem =
      if 256 * CONST_SIZE_MB ≤ tm then
        some (if 2 * CONST_SIZE_GB / CONST_SIZE_KB < mwmF (tm / CONST_SIZE_KB)
          then 2 * CONST_SIZE_GB / CONST_SIZE_KB else mwmF (tm / CONST_SIZE_KB))
      else none := rfl

theorem settings_for_cseg :
    (settings_for v os tm mcOpt cdef sbF ecsF mwmF wmF cs minw maxw cct dst).checkpoint_segments =
      if v < ver9_5 then some cs else none := rfl

theorem settings_for_minw :
    (settings_for v os tm mcOpt cdef sbF ecsF mwmF wmF cs minw maxw cct dst).min_wal_size =
      if v < ver9_5 then none else some minw := rfl

theorem settings_for_maxw :
    (settings_for v os tm mcOpt cdef sbF ecsF mwmF wmF cs minw maxw cct dst).max_wal_size =
      if v < ver9_5 then none else some maxw := rfl

theorem settings_for_wb :
    (settings_for v os tm mcOpt cdef sbF ecsF mwmF wmF cs minw maxw cct dst).wal_buffers =
      if 256 * CONST_SIZE_MB ≤ tm then
        some (
          let sb := if os = "windows" ∧ 512 * CONST_SIZE_MB / CONST_SIZE_KB < sbF (tm / CONST_SIZE_KB)
            then 512 * CONST_SIZE_MB / CONST_SIZE_KB else sbF (tm / CONST_SIZE_KB)
          let wb1 := if 16 * CONST_SIZE_MB / CONST_SIZE_KB < 3 * sb / 100
            then 16 * CONST_SIZE_MB / CONST_SIZE_KB else 3 * sb / 100
          if 14 * CONST_SIZE_MB / CONST_SIZE_KB < wb1 ∧ wb1 < 16 * CONST_SIZE_MB / CONST_SIZE_KB
            then 16 * CONST_SIZE_MB / CONST_SIZE_KB else wb1)
      else none := rfl

end SettingsForFields

/-- Under the low-memory guard being passed, `settings_for` has both
`shared_buffers` and `effective_cache_size`, and the first is below the
second as soon as the raw (unclamped) derivations are ordered that way:
the Windows clamp only replaces `shared_buffers` by a smaller value. -/
theorem settings_for_c1 (v : ℚ) (os : String) (tm : ℕ) (mcOpt : Option ℤ)
    (cdef : ℕ) (sbF ecsF mwmF wmF : ℕ → ℕ) (cs minw maxw : ℕ) (cct : ℚ) (dst : ℕ)
    (hg : 256 * CONST_SIZE_MB ≤ tm)
    (hmono : sbF (tm / CONST_SIZE_KB) ≤ ecsF (tm / CONST_SIZE_KB)) :
    ∃ cfg sb ecs,
      some (settings_for v os tm mcOpt cdef sbF ecsF mwmF wmF cs minw maxw cct dst) =
        some cfg ∧
      cfg.shared_buffers = some sb ∧ cfg.effective_cache_size = some ecs ∧
      sb ≤ ecs := by
  refine ⟨settings_for v os tm mcOpt cdef sbF ecsF mwmF wmF cs minw maxw cct dst,
    if os = "windows" ∧ 512 * CONST_SIZE_MB / CONST_SIZE_KB < sbF (tm / CONST_SIZE_KB)
      then 512 * CONST_SIZE_MB / CONST_SIZE_KB else sbF (tm / CONST_SIZE_KB),
    ecsF (tm / CONST_SIZE_KB), rfl, ?_, ?_, ?_⟩
  · rw [settings_for_sb, if_pos hg]
  · rw [settings_for_ecs, if_pos hg]
  · split_ifs with hcl
    · exact le_trans (le_of_lt hcl.2) hmono
    · exact hmono

/-- C1: for every workload type, OS, connection argument and memory of
at least 256 MiB, the produced config has both `shared_buffers` and
`effective_cache_size`, and the former never exceeds the latter (also
under the Windows 512 MiB clamp, which only lowers `shared_buffers`). -/
theorem shared_buffers_le_effective_cache_size (v : ℚ) (os t : String)
    (tm : ℕ) (mcOpt : Option ℤ)
    (ht : t ∈ (["web", "oltp", "dw", "desktop", "mixed"] : List String))
    (hm : 268435456 ≤ tm) :
    ∃ cfg sb ecs, postgres_settings v os t tm mcOpt = some cfg ∧
      cfg.shared_buffers = some sb ∧ cfg.effective_cache_size = some ecs ∧
      sb ≤ ecs := by
  have hg : 256 * CONST_SIZE_MB ≤ tm := by unfold CONST_SIZE_MB; omega
  fin_cases ht
  all_goals
    simp only [postgres_settings_web, postgres_settings_oltp, postgres_settings_dw,
      postgres_settings_desktop, postgres_settings_mixed]
    exact settings_for_c1 _ _ _ _ _ _ _ _ _ _ _ _ _ _ hg
      (by unfold CONST_SIZE_KB; omega)

/-- Witness for C1 at web / 1 GiB. -/
theorem shared_buffers_le_effective_cache_size_witness :
    ∃ cfg sb ecs, postgres_settings ver9_3 "linux" "web" 1073741824 none = some cfg ∧
      cfg.shared_buffers = some sb ∧ cfg.effective_cache_size = some ecs ∧
      sb ≤ ecs :=
  shared_buffers_le_effective_cache_size ver9_3 "linux" "web" 1073741824 none
    (by decide) (by decide)

/-- C2: resulting configs carry `checkpoint_segments` exactly for
versions below 9.5 (with the fixed per-workload table) and
`min_wal_size` / `max_wal_size` exactly from 9.5 on (with the fixed
per-workload KB tables); the two branches are never both present. -/
theorem wal_sizing_version_gate (v : ℚ) (os t : String) (tm : ℕ)
    (mcOpt : Option ℤ) (cfg : PostgresConfig)
    (h : postgres_settings v os t tm mcOpt = some cfg) :
    (v < ver9_5 →
      cfg.checkpoint_segments =
        List.lookup t [("web", 32), ("oltp", 64), ("dw", 128), ("desktop", 3), ("mixed", 32)] ∧
      cfg.min_wal_size = none ∧ cfg.max_wal_size = none) ∧
    (ver9_5 ≤ v →
      cfg.checkpoint_segments = none ∧
      cfg.min_wal_size =
        List.lookup t [("web", 1048576), ("oltp", 2097152), ("dw", 4194304),
          ("desktop", 102400), ("mixed", 1048576)] ∧
      cfg.max_wal_size =
        List.lookup t [("web", 2097152), ("oltp", 4194304), ("dw", 8388608),
          ("desktop", 102400), ("mixed", 2097152)]) := by
  have ht := valid_of_some v os t tm mcOpt cfg h
  fin_cases ht
  all_goals
    simp only [postgres_settings_web, postgres_settings_oltp, postgres_settings_dw,
      postgres_settings_desktop, postgres_settings_mixed] at h
    injection h with h
    subst h
    refine ⟨fun hv => ⟨?_, ?_, ?_⟩, fun hv => ⟨?_, ?_, ?_⟩⟩
    · rw [settings_for_cseg, if_pos hv]; decide
    · rw [settings_for_minw, if_pos hv]
    · rw [settings_for_maxw, if_pos hv]
    · rw [settings_for_cseg, if_neg (not_lt.mpr hv)]
    · rw [settings_for_minw, if_neg (not_lt.mpr hv)]; decide
    · rw [settings_for_maxw, if_neg (not_lt.mpr hv)]; decide

/-- Witness for C2 on the spec's desktop / 9.3 / 128 MB example. -/
theorem wal_sizing_version_gate_witness :
    ∃ cfg, postgres_settings ver9_3 "linux" "desktop" 134217728 none = some cfg ∧
      cfg.checkpoint_segments = some 3 ∧ cfg.min_wal_size = none ∧
      cfg.max_wal_size = none := by
  have h : postgres_settings ver9_3 "linux" "desktop" 134217728 none =
      some ⟨5, none, none, none, none, some 3, none, none, cct0_5, none, 100⟩ := by decide
  obtain ⟨h1, _⟩ := wal_sizing_version_gate ver9_3 "linux" "desktop" 134217728 none _ h
  obtain ⟨hc, hmin, hmax⟩ := h1 (by decide)
  exact ⟨_, h, by rw [hc]; decide, hmin, hmax⟩

/-- C3: configs drop exactly the four memory-sizing keys below 256 MiB
of memory and carry all four from 256 MiB on; the version-gated WAL
keys are unaffected by the guard (`max_connections`,
`checkpoint_completion_target` and `default_statistics_target` are
unconditional fields of `PostgresConfig`, hence always present). -/
theorem low_memory_guard (v : ℚ) (os t : String) (tm : ℕ)
    (mcOpt : Option ℤ) (cfg : PostgresConfig)
    (h : postgres_settings v os t tm mcOpt = some cfg) :
    (tm < 268435456 →
      cfg.shared_buffers = none ∧ cfg.effective_cache_size = none ∧
      cfg.work_mem = none ∧ cfg.maintenance_work_mem = none) ∧
    (268435456 ≤ tm →
      cfg.shared_buffers.isSome = true ∧ cfg.effective_cache_size.isSome = true ∧
      cfg.work_mem.isSome = true ∧ cfg.maintenance_work_mem.isSome = true) ∧
    (v < ver9_5 → cfg.checkpoint_segments.isSome = true) ∧
    (ver9_5 ≤ v →
      cfg.min_wal_size.isSome = true ∧ cfg.max_wal_size.isSome = true) := by
  have ht := valid_of_some v os t tm mcOpt cfg h
  fin_cases ht
  all_goals
    simp only [postgres_settings_web, postgres_settings_oltp, postgres_settings_dw,
      postgres_settings_desktop, postgres_settings_mixed] at h
    injection h with h
    subst h
    refine ⟨fun hlow => ?_, fun hge => ?_, fun hv => ?_, fun hv => ⟨?_, ?_⟩⟩
    · have hgn : ¬ 256 * CONST_SIZE_MB ≤ tm := by unfold CONST_SIZE_MB; omega
      exact ⟨by rw [settings_for_sb, if_neg hgn], by rw [settings_for_ecs, if_neg hgn],
        by rw [settings_for_wm, if_neg hgn], by rw [settings_for_mwm, if_neg hgn]⟩
    · have hg : 256 * CONST_SIZE_MB ≤ tm := by unfold CONST_SIZE_MB; omega
      exact ⟨by rw [settings_for_sb, if_pos hg]; rfl,
        by rw [settings_for_ecs, if_pos hg]; rfl,
        by rw [settings_for_wm, if_pos hg]; rfl,
        by rw [settings_for_mwm, if_pos hg]; rfl⟩
    · rw [settings_for_cseg, if_pos hv]; rfl
    · rw [settings_for_minw, if_neg (not_lt.mpr hv)]; rfl
    · rw [settings_for_maxw, if_neg (not_lt.mpr hv)]; rfl

/-- Witness for C3 on the spec's desktop / 9.3 / 128 MB example. -/
theorem low_memory_guard_witness :
    ∃ cfg, postgres_settings ver9_3 "linux" "desktop" 134217728 none = some cfg ∧
      cfg.shared_buffers = none ∧ cfg.effective_cache_size = none ∧
      cfg.work_mem = none ∧ cfg.maintenance_work_mem = none := by
  have h : postgres_settings ver9_3 "linux" "desktop" 134217728 none =
      some ⟨5, none, none, none, none, some 3, none, none, cct0_5, none, 100⟩ := by decide
  obtain ⟨h1, _⟩ := low_memory_guard ver9_3 "linux" "desktop" 134217728 none _ h
  obtain ⟨ha, hb, hc, hd⟩ := h1 (by decide)
  exact ⟨_, h, ha, hb, hc, hd⟩

/-- C5: `maintenance_work_mem`, whenever present, is at most 2 GiB in
KB, and from 256 MiB of memory on it equals the per-workload divisor
result capped at 2 GiB (divisor 8 for dw, 16 otherwise). -/
theorem maintenance_work_mem_capped (v : ℚ) (os t : String) (tm : ℕ)
    (mcOpt : Option ℤ) (cfg : PostgresConfig)
    (h : postgres_settings v os t tm mcOpt = some cfg) :
    (∀ x, cfg.maintenance_work_mem = some x → x ≤ 2097152) ∧
    (268435456 ≤ tm → ∀ dv,
      List.lookup t [("web", 16), ("oltp", 16), ("dw", 8), ("desktop", 16), ("mixed", 16)] =
        some dv →
      cfg.maintenance_work_mem = some (min 2097152 (tm / 1024 / dv))) := by
  have ht := valid_of_some v os t tm mcOpt cfg h
  fin_cases ht
  all_goals
    simp only [postgres_settings_web, postgres_settings_oltp, postgres_settings_dw,
      postgres_settings_desktop, postgres_settings_mixed] at h
    injection h with h
    subst h
    constructor
    · intro x hx
      rw [settings_for_mwm] at hx
      unfold CONST_SIZE_GB CONST_SIZE_KB CONST_SIZE_MB at hx
      split_ifs at hx with hg hcap
      · injection hx with hx; omega
      · injection hx with hx; omega
    · intro hmem dv hdv
      have hg : 256 * CONST_SIZE_MB ≤ tm := by unfold CONST_SIZE_MB; omega
      simp only [List.lookup, String.reduceBEq, beq_self_eq_true] at hdv
      injection hdv with hdv
      subst hdv
      rw [settings_for_mwm, if_pos hg]
      refine congrArg some ?_
      unfold CONST_SIZE_GB CONST_SIZE_KB
      split_ifs <;> omega

/-- Witness for C5 at web / 1 GiB. -/
theorem maintenance_work_mem_capped_witness :
    ∃ cfg, postgres_settings ver9_3 "linux" "web" 1073741824 none = some cfg ∧
      cfg.maintenance_work_mem = some (min 2097152 (1073741824 / 1024 / 16)) := by
  have h : postgres_settings ver9_3 "linux" "web" 1073741824 none =
      some ⟨200, some 262144, some 786432, some 1310, some 65536, some 32, none, none,
        cct0_7, some 7864, 100⟩ := by decide
  obtain ⟨_, h2⟩ := maintenance_work_mem_capped ver9_3 "linux" "web" 1073741824 none _ h
  exact ⟨_, h, h2 (by decide) 16 (by decide)⟩

/-- C9: the config's `max_connections` is the input when that is given
and lies in `[1, 9999]`, and the workload default from `CON_BY_TYPE`
when the input is absent or out of range; out-of-range inputs never
fail. -/
theorem max_connections_resolution (v : ℚ) (os t : String) (tm : ℕ)
    (mcOpt : Option ℤ) (cfg : PostgresConfig)
    (h : postgres_settings v os t tm mcOpt = some cfg) :
    (∀ m : ℤ, mcOpt = some m → 1 ≤ m → m ≤ 9999 →
      (cfg.max_connections : ℤ) = m) ∧
    (∀ d, List.lookup t CON_BY_TYPE = some d →
      (mcOpt = none ∨ ∃ m, mcOpt = some m ∧ (m < 1 ∨ 9999 < m)) →
      cfg.max_connections = d) := by
  have ht := valid_of_some v os t tm mcOpt cfg h
  fin_cases ht
  all_goals
    simp only [postgres_settings_web, postgres_settings_oltp, postgres_settings_dw,
      postgres_settings_desktop, postgres_settings_mixed] at h
    injection h with h
    subst h
    constructor
    · intro m hm h1 h2
      subst hm
      rw [settings_for_mc]
      simp only [resolve_connections]
      rw [if_neg (by omega)]
      exact Int.toNat_of_nonneg (by omega)
    · intro d hd hcase
      simp only [CON_BY_TYPE, List.lookup, String.reduceBEq, beq_self_eq_true] at hd
      injection hd with hd
      subst hd
      rcases hcase with rfl | ⟨m, rfl, hbad⟩
      · rw [settings_for_mc]
        rfl
      · rw [settings_for_mc]
        simp only [resolve_connections]
        rw [if_pos hbad]

/-- Witness for C9: an in-range explicit `max_connections` is used
verbatim. -/
theorem max_connections_resolution_witness :
    ∃ cfg, postgres_settings ver9_3 "linux" "web" 0 (some 50) = some cfg ∧
      (cfg.max_connections : ℤ) = 50 := by
  have h : postgres_settings ver9_3 "linux" "web" 0 (some 50) =
      some ⟨50, none, none, none, none, some 32, none, none, cct0_7, none, 100⟩ := by decide
  obtain ⟨h1, _⟩ := max_connections_resolution ver9_3 "linux" "web" 0 (some 50) _ h
  exact ⟨_, h, h1 50 rfl (by decide) (by decide)⟩

/-- Characterization of `wal_buffers` on `settings_for`: absent exactly
below the memory guard; otherwise at most 16384 KB, equal to 16384 when
the uncapped 3 percent of the (possibly clamped) `shared_buffers` lies
strictly between 14336 and 16384, and equal to the capped floor
otherwise. -/
theorem settings_for_c4 (v : ℚ) (os : String) (tm : ℕ) (mcOpt : Option ℤ)
    (cdef : ℕ) (sbF ecsF mwmF wmF : ℕ → ℕ) (cs minw maxw : ℕ) (cct : ℚ) (dst : ℕ)
    (c : PostgresConfig)
    (hc : settings_for v os tm mcOpt cdef sbF ecsF mwmF wmF cs minw maxw cct dst = c) :
    (c.wal_buffers = none ↔ tm < 256 * CONST_SIZE_MB) ∧
    (∀ w, c.wal_buffers = some w → w ≤ 16384) ∧
    (∀ sb, c.shared_buffers = some sb →
      ((14336 < 3 * sb / 100 ∧ 3 * sb / 100 < 16384) → c.wal_buffers = some 16384) ∧
      (¬(14336 < 3 * sb / 100 ∧ 3 * sb / 100 < 16384) →
        c.wal_buffers = some (min (3 * sb / 100) 16384))) := by
  subst hc
  by_cases hg : 256 * CONST_SIZE_MB ≤ tm
  · refine ⟨?_, ?_, ?_⟩
    · rw [settings_for_wb, if_pos hg]
      exact ⟨fun hx => absurd hx (by simp), fun hlt => absurd hg (not_le.mpr hlt)⟩
    · intro w hw
      rw [settings_for_wb, if_pos hg] at hw
      injection hw with hw
      subst hw
      simp only [CONST_SIZE_MB, CONST_SIZE_KB]
      split_ifs <;> omega
    · intro sb hsb
      rw [settings_for_sb, if_pos hg] at hsb
      injection hsb with hsb
      constructor <;> intro hcond <;> rw [settings_for_wb, if_pos hg] <;>
        refine congrArg some ?_ <;>
        simp only [CONST_SIZE_MB, CONST_SIZE_KB] at hsb ⊢ <;>
        rw [hsb] <;>
        split_ifs <;> omega
  · refine ⟨?_, ?_, ?_⟩
    · rw [settings_for_wb, if_neg hg]
      exact ⟨fun _ => not_le.mp hg, fun _ => rfl⟩
    · intro w hw
      rw [settings_for_wb, if_neg hg] at hw
      exact absurd hw (by simp)
    · intro sb hsb
      rw [settings_for_sb, if_neg hg] at hsb
      exact absurd hsb (by simp)

/-- C4, amended: `wal_buffers` is absent exactly below 256 MiB; when
present it never exceeds 16384 KB; it equals exactly 16384 KB when the
uncapped floor of 3 percent of `shared_buffers` lies strictly between
14336 and 16384 KB, and equals the 16384-capped floor otherwise (the
claim's unconditional equality with the capped floor fails inside that
band, see the counterexample). -/
theorem wal_buffers_characterization (v : ℚ) (os t : String) (tm : ℕ)
    (mcOpt : Option ℤ) (cfg : PostgresConfig)
    (h : postgres_settings v os t tm mcOpt = some cfg) :
    (cfg.wal_buffers = none ↔ tm < 268435456) ∧
    (∀ w, cfg.wal_buffers = some w → w ≤ 16384) ∧
    (∀ sb, cfg.shared_buffers = some sb →
      ((14336 < 3 * sb / 100 ∧ 3 * sb / 100 < 16384) → cfg.wal_buffers = some 16384) ∧
      (¬(14336 < 3 * sb / 100 ∧ 3 * sb / 100 < 16384) →
        cfg.wal_buffers = some (min (3 * sb / 100) 16384))) := by
  have ht := valid_of_some v os t tm mcOpt cfg h
  have h256 : (268435456 : ℕ) = 256 * CONST_SIZE_MB := by unfold CONST_SIZE_MB; omega
  rw [h256]
  fin_cases ht
  all_goals
    simp only [postgres_settings_web, postgres_settings_oltp, postgres_settings_dw,
      postgres_settings_desktop, postgres_settings_mixed] at h
    injection h with h
    exact settings_for_c4 _ _ _ _ _ _ _ _ _ _ _ _ _ _ _ h

/-- Counterexample for C4 as frozen: at web / linux / 9.6 /
2048000000 bytes, `shared_buffers` is 500000 KB, the uncapped 3 percent
floor is 15000 KB (inside the open band 14336..16384), and the emitted
`wal_buffers` is the rounded-up 16384 KB, not the claimed
`min (floor (3 sb / 100)) 16384` = 15000 KB. -/
theorem wal_buffers_min_claim_counterexample :
    ∃ cfg, postgres_settings (Rat.mk' 48 5) "linux" "web" 2048000000 none = some cfg ∧
      cfg.shared_buffers = some 500000 ∧
      3 * 500000 / 100 = 15000 ∧
      min (3 * 500000 / 100) 16384 = 15000 ∧
      cfg.wal_buffers = some 16384 ∧
      cfg.wal_buffers ≠ some (min (3 * 500000 / 100) 16384) :=
  ⟨⟨200, some 500000, some 1500000, some 2500, some 125000, none, some 1048576,
    some 2097152, cct0_7, some 16384, 100⟩, by decide, by decide, by decide, by decide,
    by decide, by decide⟩

/-- Witness for the amended C4 at web / 1 GiB (3 percent branch,
outside the round-up band). -/
theorem wal_buffers_characterization_witness :
    ∃ cfg, postgres_settings (Rat.mk' 48 5) "linux" "web" 1073741824 none = some cfg ∧
      cfg.wal_buffers = some (min (3 * 262144 / 100) 16384) := by
  have h : postgres_settings (Rat.mk' 48 5) "linux" "web" 1073741824 none =
      some ⟨200, some 262144, some 786432, some 1310, some 65536, none, some 1048576,
        some 2097152, cct0_7, some 7864, 100⟩ := by decide
  obtain ⟨_, _, h3⟩ := wal_buffers_characterization (Rat.mk' 48 5) "linux" "web"
    1073741824 none _ h
  exact ⟨_, h, (h3 262144 (by decide)).2 (by decide)⟩

end PostgresqlTune
